import Mathlib

/-!
# Scene-Builder: verification of the normalization pipeline

Shallow embedding of the core of the Scene-Builder repository
(`src/app/agents/pipeline.py` and `src/app/core/schema.py`):

* `_clean_gemini_json`   — the raw-text sanitizer (pipeline.py lines 24-38),
  modelled character-exactly on `List Char` (`cleanChars`);
* `_normalize_to_scene_schema` — the normalization engine
  (pipeline.py lines 41-123), including the pydantic validation that the
  final `SceneSchema(...)` constructor performs (schema.py);
* the fallback branch of `run_pipeline` (pipeline.py lines 214-255).

JSON values are modelled by the inductive type `Json`; Python dicts are
association lists looked up by first match (JSON parsing never produces
duplicate keys).  JSON numbers are modelled as rationals (`Rat`): every
numeric value handled by the claims is decimal and the pipeline performs
no arithmetic on them, so this is exact.  The pydantic fragment modelled
accepts JSON numbers for numeric fields, strings for string fields and
null for `Optional` fields; pydantic's lax string-to-number coercions are
outside the fragment (no claim exercises them).
-/

/-- JSON values (the result of `json.loads`). -/
inductive Json where
  | null : Json
  | bool (b : Bool) : Json
  | num (q : Rat) : Json
  | str (s : String) : Json
  | arr (elems : List Json) : Json
  | obj (fields : List (String × Json)) : Json

/-- Python `d.get(k)`: first binding of `k` in the dict. -/
def jget (kvs : List (String × Json)) (k : String) : Option Json :=
  (kvs.find? (fun p => p.1 == k)).map (fun p => p.2)

/-- Python `d.get(k, dflt)`. -/
def jgetD (kvs : List (String × Json)) (k : String) (dflt : Json) : Json :=
  (jget kvs k).getD dflt

/-- Python `k in d` for dicts. -/
def hasKey (kvs : List (String × Json)) (k : String) : Bool :=
  kvs.any (fun p => p.1 == k)

/-! ## Raw-Text Sanitizer (`_clean_gemini_json`, pipeline.py lines 24-38) -/

/-- The backtick character (0x60). -/
def tick : Char := '\x60'

/-- The character `{` (0x7b). -/
def lbrace : Char := '\x7b'

/-- The character `}` (0x7d). -/
def rbrace : Char := '\x7d'

/-- Python `str.strip()` whitespace (ASCII fragment of Python's set). -/
def isPySpace (c : Char) : Bool :=
  c == ' ' || c == '\t' || c == '\n' || c == '\r' || c == '\x0b' || c == '\x0c'

/-- Python `s.strip(chars)`: drop characters satisfying `p` from both ends. -/
def pyStrip (p : Char → Bool) (l : List Char) : List Char :=
  ((l.dropWhile p).reverse.dropWhile p).reverse

/-- Python `s.startswith(three backticks)`. -/
def startsTicks (l : List Char) : Bool :=
  l.take 3 == [tick, tick, tick]

/-- Python `s.lower().startswith(the json tag)` (ASCII lower-casing). -/
def startsJsonTag (l : List Char) : Bool :=
  (l.map Char.toLower).take 4 == ['j', 's', 'o', 'n']

/-- Python `s.replace(three backticks, empty)`: greedy left-to-right
non-overlapping removal, continuing after each removed occurrence. -/
def replaceTicks : List Char → List Char
  | [] => []
  | c :: r =>
    if startsTicks (c :: r) then replaceTicks (r.drop 2)
    else c :: replaceTicks r
termination_by l => l.length
decreasing_by
  · simp only [List.length_drop, List.length_cons]; omega
  · simp only [List.length_cons]; omega

/-- Python `s.find(c)` as an option (the source compares with -1). -/
def firstIdx (l : List Char) (c : Char) : Option Nat :=
  l.findIdx? (fun d => d == c)

/-- Python `s.rfind(c)` as an option. -/
def lastIdx (l : List Char) (c : Char) : Option Nat :=
  (l.reverse.findIdx? (fun d => d == c)).map (fun i => l.length - 1 - i)

/-- `_clean_gemini_json` on character lists, line by line:
`if not text: return text`; `text = text.strip()`; the fence branch
(strip backticks, drop a case-insensitive json tag, delete remaining
triple backticks); slice from the first `{` to the last `}` when both
exist; final `strip`. -/
def cleanChars (l : List Char) : List Char :=
  if l = [] then l
  else
    let t1 := pyStrip isPySpace l
    let t2 :=
      if startsTicks t1 then
        let u1 := pyStrip (fun c => c == tick) t1
        let u2 := if startsJsonTag u1 then u1.drop 4 else u1
        replaceTicks u2
      else t1
    let t3 :=
      match firstIdx t2 lbrace, lastIdx t2 rbrace with
      | some a, some b => (t2.drop a).take (b + 1 - a)
      | _, _ => t2
    pyStrip isPySpace t3

/-- `_clean_gemini_json` (pipeline.py lines 24-38). -/
def _clean_gemini_json (s : String) : String :=
  String.mk (cleanChars s.data)

/-- Does the text contain three consecutive backticks anywhere? -/
def hasTTT : List Char → Bool
  | [] => false
  | c :: r => startsTicks (c :: r) || hasTTT r

/-- The fence-processing stage of the sanitizer in isolation: the text
after trimming and, when a fence marker leads, backtick stripping,
json-tag removal and triple-backtick deletion. -/
def fenceT (l : List Char) : List Char :=
  if startsTicks (pyStrip isPySpace l) then
    let u1 := pyStrip (fun c => c == tick) (pyStrip isPySpace l)
    let u2 := if startsJsonTag u1 then u1.drop 4 else u1
    replaceTicks u2
  else pyStrip isPySpace l

/-! ## Schema definitions (schema.py)

Pydantic models; `validate` functions mirror pydantic v2 construction from
untyped data: required fields error when missing, `Optional` fields accept
null as `none` and default when absent, `Literal` fields check membership,
unknown keys are ignored.  Field validation follows declaration order. -/

namespace SB

/-- `Effect` (schema.py lines 20-22): `name: str`, `props: Dict = {}`. -/
structure Effect where
  name : String
  props : List (String × Json)

/-- `Action` (schema.py lines 24-30). -/
structure Action where
  id : String
  type : String
  startSec : Rat
  durationSec : Rat
  props : List (String × Json)
  effects : Option (List Effect)

/-- `Row` (schema.py lines 32-36). -/
structure Row where
  id : String
  kind : String
  actions : List Action
  transitions : Option (List Effect)

/-- `SceneItem` (schema.py lines 38-42). -/
structure SceneItem where
  id : String
  title : Option String
  durationSec : Rat
  rows : List Row

/-- `Meta` (schema.py lines 44-49).  `totalDurationSec` is required;
the other fields are `Optional` with defaults. -/
structure Meta where
  aspectRatio : Option String
  fps : Option Int
  totalDurationSec : Rat
  generator : Option String
  version : Option String

/-- `SceneSchema` (schema.py lines 51-53): only `scenes` and `meta`;
the `plan` keyword passed by the pipeline is an unknown field and is
ignored (pydantic default `extra` policy). -/
structure SceneSchema where
  scenes : List SceneItem
  meta : Meta

/-- `SceneInputConstraints` (schema.py lines 56-61). -/
structure SceneInputConstraints where
  totalDurationSec : Option Int := none
  aspectRatio : Option String := some "16:9"
  fps : Option Int := some 30
  language : Option String := some "en"
  deterministic : Option Bool := some false

/-- Effect-free `mapM` over `Except`, mirroring a Python loop that stops
at the first exception. -/
def mapME (f : α → Except String β) : List α → Except String (List β)
  | [] => .ok []
  | a :: l =>
    match f a with
    | .ok b =>
      match mapME f l with
      | .ok bs => .ok (b :: bs)
      | .error e => .error e
    | .error e => .error e

/-- Validate a required `str` field. -/
def reqStr (f : List (String × Json)) (k : String) : Except String String :=
  match jget f k with
  | some (.str s) => .ok s
  | _ => .error (k ++ ": a valid string is required")

/-- Validate an `Optional[str]` field with default `dflt`. -/
def optStrF (f : List (String × Json)) (k : String) (dflt : Option String) :
    Except String (Option String) :=
  match jget f k with
  | none => .ok dflt
  | some .null => .ok none
  | some (.str s) => .ok (some s)
  | some _ => .error (k ++ ": a valid string is required")

/-- Validate a required `float` field (JSON numbers). -/
def reqFloatF (f : List (String × Json)) (k : String) : Except String Rat :=
  match jget f k with
  | some (.num q) => .ok q
  | _ => .error (k ++ ": a valid number is required")

/-- Validate an `Optional[int]` field with default `dflt`; an integral
JSON number is accepted. -/
def optIntF (f : List (String × Json)) (k : String) (dflt : Option Int) :
    Except String (Option Int) :=
  match jget f k with
  | none => .ok dflt
  | some .null => .ok none
  | some (.num q) =>
    if q.den = 1 then .ok (some q.num)
    else .error (k ++ ": a valid integer is required")
  | some _ => .error (k ++ ": a valid integer is required")

/-- `Effect` validation: `name` required, `props` defaults to an empty
dict, unknown keys ignored. -/
def Effect.validate (j : Json) : Except String Effect :=
  match j with
  | .obj f =>
    match reqStr f "name" with
    | .ok name =>
      match jget f "props" with
      | none => .ok { name := name, props := [] }
      | some (.obj p) => .ok { name := name, props := p }
      | some _ => .error "props: a valid dictionary is required"
    | .error e => .error e
  | _ => .error "Effect: a valid dictionary is required"

/-- Validate an `Optional[List[Effect]]` field given its raw value
(absent means the `default_factory=list` empty list). -/
def effectListOpt (v : Option Json) : Except String (Option (List Effect)) :=
  match v with
  | none => .ok (some [])
  | some .null => .ok none
  | some (.arr l) =>
    match mapME Effect.validate l with
    | .ok es => .ok (some es)
    | .error e => .error e
  | some _ => .error "a valid list is required"

/-- `Action` validation: `type` is the `Literal` enum of the four
canonical kinds. -/
def Action.validate (j : Json) : Except String Action :=
  match j with
  | .obj f =>
    match reqStr f "id" with
    | .ok id =>
      match jget f "type" with
      | some (.str ty) =>
        if ty = "video" || ty = "image" || ty = "audio" || ty = "text" then
          match reqFloatF f "startSec" with
          | .ok st =>
            match reqFloatF f "durationSec" with
            | .ok du =>
              match jget f "props" with
              | some (.obj p) =>
                match effectListOpt (jget f "effects") with
                | .ok es =>
                  .ok { id := id, type := ty, startSec := st,
                        durationSec := du, props := p, effects := es }
                | .error e => .error e
              | _ => .error "props: a valid dictionary is required"
            | .error e => .error e
          | .error e => .error e
        else .error "type: input should be video, image, audio or text"
      | _ => .error "type: a valid string is required"
    | .error e => .error e
  | _ => .error "Action: a valid dictionary is required"

/-- `Row` validation. -/
def Row.validate (j : Json) : Except String Row :=
  match j with
  | .obj f =>
    match reqStr f "id" with
    | .ok id =>
      match jget f "kind" with
      | some (.str kd) =>
        if kd = "video" || kd = "image" || kd = "audio" || kd = "text"
            || kd = "captions" then
          match jget f "actions" with
          | some (.arr l) =>
            match mapME Action.validate l with
            | .ok acts =>
              match effectListOpt (jget f "transitions") with
              | .ok trs => .ok { id := id, kind := kd, actions := acts,
                                 transitions := trs }
              | .error e => .error e
            | .error e => .error e
          | _ => .error "actions: a valid list is required"
        else .error "kind: invalid literal"
      | _ => .error "kind: a valid string is required"
    | .error e => .error e
  | _ => .error "Row: a valid dictionary is required"

/-- `SceneItem` validation (`description` is not a model field and is
dropped). -/
def SceneItem.validate (j : Json) : Except String SceneItem :=
  match j with
  | .obj f =>
    match reqStr f "id" with
    | .ok id =>
      match optStrF f "title" (some "") with
      | .ok title =>
        match reqFloatF f "durationSec" with
        | .ok du =>
          match jget f "rows" with
          | some (.arr l) =>
            match mapME Row.validate l with
            | .ok rows => .ok { id := id, title := title, durationSec := du,
                                rows := rows }
            | .error e => .error e
          | _ => .error "rows: a valid list is required"
        | .error e => .error e
      | .error e => .error e
    | .error e => .error e
  | _ => .error "SceneItem: a valid dictionary is required"

/-- `Meta` validation: `totalDurationSec` required, the rest optional
with schema defaults; unknown fields (e.g. `language`) are dropped. -/
def Meta.validate (j : Json) : Except String Meta :=
  match j with
  | .obj f =>
    match optStrF f "aspectRatio" (some "16:9") with
    | .ok ar =>
      match optIntF f "fps" (some 30) with
      | .ok fps =>
        match reqFloatF f "totalDurationSec" with
        | .ok td =>
          match optStrF f "generator" (some "scene-builder-agent") with
          | .ok gen =>
            match optStrF f "version" (some "1.0.0") with
            | .ok ver => .ok { aspectRatio := ar, fps := fps,
                               totalDurationSec := td, generator := gen,
                               version := ver }
            | .error e => .error e
          | .error e => .error e
        | .error e => .error e
      | .error e => .error e
    | .error e => .error e
  | _ => .error "Meta: a valid dictionary is required"

/-- `SceneSchema(plan=..., scenes=scenes, meta=meta)`: validate the scene
dicts and the meta dict; the unknown `plan` keyword is ignored. -/
def SceneSchema.ofScenesMeta (scenesJ : List Json) (metaJ : Json) :
    Except String SceneSchema :=
  match mapME SceneItem.validate scenesJ with
  | .ok scs =>
    match Meta.validate metaJ with
    | .ok m => .ok { scenes := scs, meta := m }
    | .error e => .error e
  | .error e => .error e

/-- `model_dump` of `Meta`: exactly the five declared fields (in
declaration order), `None` dumped as null. -/
def Meta.dump (m : Meta) : List (String × Json) :=
  [("aspectRatio", match m.aspectRatio with | some s => .str s | none => .null),
   ("fps", match m.fps with | some n => .num (n : Rat) | none => .null),
   ("totalDurationSec", .num m.totalDurationSec),
   ("generator", match m.generator with | some s => .str s | none => .null),
   ("version", match m.version with | some s => .str s | none => .null)]

/-! ## Normalization Engine (`_normalize_to_scene_schema`, pipeline.py 41-123)

Python dict/iteration failures (calling `.get` on a non-dict, iterating a
non-list where dict entries are expected, `float()` on a non-numeric value)
are modelled as `Except.error`; they are uncaught exceptions in the source.
-/

/-- Python truthiness of a JSON value (`not t` on a dict entry). -/
def falsy : Json → Bool
  | .null => true
  | .bool b => !b
  | .num q => q == 0
  | .str s => s == ""
  | .arr l => l.isEmpty
  | .obj l => l.isEmpty

/-- `isinstance(x, dict)` wrapping: a bare mapping becomes a one-element
list; anything else is left as-is (pipeline.py 54-60). -/
def wrapIfDict (j : Json) : Json :=
  match j with
  | .obj _ => .arr [j]
  | _ => j

/-- Python `str.lower()` (ASCII fragment). -/
def pyLower (s : String) : String :=
  String.mk (s.data.map Char.toLower)

/-- Python `float(x)` on a JSON value (numeric strings are outside the
modelled fragment; no pipeline value is a numeric string). -/
def pyFloat (j : Json) : Except String Rat :=
  match j with
  | .num q => .ok q
  | .bool b => .ok (if b then 1 else 0)
  | _ => .error "float(): a number is required"

/-- Update the value stored under `k` (Python `t[k] = v` on an existing
key keeps its position). -/
def setVal (kvs : List (String × Json)) (k : String) (v : Json) :
    List (String × Json) :=
  kvs.map (fun p => if p.1 == k then (k, v) else p)

/-- The transition name-fixing loop body (pipeline.py 63-65 and 93-95):
if `name` is missing or falsy, set it to `t.get("type", "unknown")`.
A non-dict entry raises in Python (item assignment on a non-dict). -/
def normTransition (t : Json) : Except String Json :=
  match t with
  | .obj kvs =>
    match jget kvs "name" with
    | none => .ok (.obj (kvs ++ [("name", jgetD kvs "type" (.str "unknown"))]))
    | some v =>
      if falsy v then .ok (.obj (setVal kvs "name" (jgetD kvs "type" (.str "unknown"))))
      else .ok t
  | _ => .error "transition: a mapping is required"

/-- `{**asset, "src": asset.get("src", "")}` (pipeline.py 87): the asset
entries in order, with `src` overridden in place or appended. -/
def dictWithSrc (a : List (String × Json)) : List (String × Json) :=
  let srcv := jgetD a "src" (.str "")
  if a.any (fun p => p.1 == "src") then setVal a "src" srcv
  else a ++ [("src", srcv)]

/-- One iteration of the asset loop (pipeline.py 71-90), building the
action dict for asset number `aidx` (1-based) of scene number `idx`. -/
def normAsset (idx aidx : Nat) (duration : Json) (asset : Json) :
    Except String Json :=
  match asset with
  | .obj a =>
    let effects0 := jgetD a "effects" (.arr [])
    let effects : Json :=
      match effects0 with
      | .obj _ => .arr [effects0]
      | .null => .arr []
      | e => e
    match jgetD a "type" (.str "video") with
    | .str ty0 =>
      let ty1 := pyLower ty0
      let ty := if ty1 = "music" then "audio" else ty1
      match pyFloat (jgetD a "startSec" (.num 0)) with
      | .ok st =>
        match pyFloat (jgetD a "durationSec" duration) with
        | .ok du =>
          .ok (.obj [("id", jgetD a "id" (.str s!"action-{idx}-{aidx}")),
                     ("type", .str ty),
                     ("startSec", .num st),
                     ("durationSec", .num du),
                     ("props", jgetD a "props" (.obj (dictWithSrc a))),
                     ("effects", effects)])
        | .error e => .error e
      | .error e => .error e
    | _ => .error "type: lower() requires a string"
  | _ => .error "asset: a mapping is required"

/-- One iteration of the scene loop (pipeline.py 49-112) for the scene at
1-based position `idx`, producing the `scene_obj` dict. -/
def normScene (idx : Nat) (sc : Json) : Except String Json :=
  match sc with
  | .obj s =>
    match jgetD s "assets" (.arr []) with
    | .arr assets =>
      let _scene_effects := wrapIfDict (jgetD s "effects" (.arr []))
      match wrapIfDict (jgetD s "transitions" (.arr [])) with
      | .arr trsRaw =>
        match mapME normTransition trsRaw with
        | .ok trs1 =>
          let duration := jgetD s "durationSec" (.num 3)
          match mapME (fun pr => normAsset idx pr.1 duration pr.2)
              (List.enumFrom 1 assets) with
          | .ok rowActions =>
            match mapME normTransition trs1 with
            | .ok trs2 =>
              let row : Json :=
                .obj [("id", .str s!"row-{idx}-1"),
                      ("kind", .str "video"),
                      ("actions", .arr rowActions),
                      ("transitions", .arr trs2)]
              .ok (.obj [("id", jgetD s "id" (.str s!"scene_{idx}")),
                         ("title", jgetD s "title" (.str s!"Scene {idx}")),
                         ("description", jgetD s "description" (.str "")),
                         ("rows", .arr [row]),
                         ("durationSec", duration)])
            | .error e => .error e
          | .error e => .error e
        | .error e => .error e
      | _ => .error "transitions: iteration requires a list of mappings"
    | _ => .error "assets: iteration requires a list of mappings"
  | _ => .error "scene entry: a mapping is required"

/-- The body of `_normalize_to_scene_schema`, split on the three top-level
lookups (`plan`, `scenes`, `meta`). -/
def normCore (planV : Json) (scenesV : Option Json) (metaV : Json) :
    Except String SceneSchema :=
  match (match scenesV with
         | none => Except.ok ([] : List Json)
         | some (.arr l) => Except.ok l
         | some _ => Except.error "scenes: iteration requires a list of mappings") with
  | .ok rawScenes =>
    match mapME (fun pr => normScene pr.1 pr.2) (List.enumFrom 1 rawScenes) with
    | .ok sceneJs =>
      match planV with
      | .obj planF =>
        -- the plan dict built at pipeline.py 116-120; SceneSchema has no
        -- plan field, so pydantic drops it (the lookups still run)
        let _plan : Json :=
          .obj [("scenesCount", .num sceneJs.length),
                ("notes", jgetD planF "summary" (jgetD planF "notes" (.str ""))),
                ("prompt", jgetD planF "prompt" (.str ""))]
        SceneSchema.ofScenesMeta sceneJs metaV
      | _ => .error "plan: a mapping is required for plan.get"
    | .error e => .error e
  | .error e => .error e

/-- `_normalize_to_scene_schema` body on the raw dict. -/
def normBody (kvs : List (String × Json)) : Except String SceneSchema :=
  normCore (jgetD kvs "plan" (.obj [])) (jget kvs "scenes")
    (jgetD kvs "meta" (.obj []))

/-- `_normalize_to_scene_schema` (pipeline.py 41-123). -/
def _normalize_to_scene_schema (raw : Json) : Except String SceneSchema :=
  match raw with
  | .obj kvs => normBody kvs
  | _ => .error "raw_scene: a mapping is required"

/-! ## Fallback branch of `run_pipeline` (pipeline.py 214-255) -/

/-- `constraints.totalDurationSec if constraints and
getattr(constraints, "totalDurationSec", None) else 10`: Python
truthiness, so `None` and `0` both fall back to 10. -/
def fallbackTotalDuration (c : Option SceneInputConstraints) : Int :=
  match c with
  | some cc =>
    match cc.totalDurationSec with
    | some d => if d = 0 then 10 else d
    | none => 10
  | none => 10

/-- Same truthiness pattern for `aspectRatio` (default "16:9"). -/
def fallbackAspect (c : Option SceneInputConstraints) : String :=
  match c with
  | some cc =>
    match cc.aspectRatio with
    | some s => if s = "" then "16:9" else s
    | none => "16:9"
  | none => "16:9"

/-- Same truthiness pattern for `fps` (default 30). -/
def fallbackFps (c : Option SceneInputConstraints) : Int :=
  match c with
  | some cc =>
    match cc.fps with
    | some n => if n = 0 then 30 else n
    | none => 30
  | none => 30

/-- The fields of `mock_scene` other than `processId` (pipeline.py
215-241), with the three constraint-derived values as parameters. -/
def mockBody (prompt : String) (dur fps : Int) (ar : String) :
    List (String × Json) :=
  [("plan", .obj [("title", .str "Mock Plan"),
                  ("summary", .str "Fallback mock plan if LLM unavailable."),
                  ("themes", .arr [.str "mock"])]),
   ("scenes", .arr [
      .obj [("id", .str "1"),
            ("title", .str "Intro"),
            ("description", .str prompt),
            ("assets", .arr [
               .obj [("type", .str "video"), ("src", .str "placeholder_intro.mp4")],
               .obj [("type", .str "text"), ("src", .str prompt)]]),
            ("effects", .arr [.obj [("type", .str "transition"), ("name", .str "fadeIn")]]),
            ("durationSec", .num (dur : Rat))]]),
   ("meta", .obj [("totalDurationSec", .num (dur : Rat)),
                  ("aspectRatio", .str ar),
                  ("fps", .num (fps : Rat)),
                  ("language", .str "en")])]

/-- `mock_scene` (pipeline.py 215-241); the random `processId` is a
parameter. -/
def mock_scene (prompt : String) (c : Option SceneInputConstraints)
    (processId : String) : Json :=
  .obj (("processId", .str processId) ::
    mockBody prompt (fallbackTotalDuration c) (fallbackFps c) (fallbackAspect c))

/-- `Plan` summary produced by `_make_plan` (pipeline.py 125-128). -/
structure PlanSummary where
  scenesCount : Nat
  notes : String
  prompt : String

/-- `_make_plan` (pipeline.py 125-128), reading the scene count from the
normalized document. -/
def _make_plan (prompt : String) (normalized : SceneSchema) : PlanSummary :=
  { scenesCount := normalized.scenes.length,
    notes := s!"Generated {normalized.scenes.length} scene(s) from prompt",
    prompt := prompt }

/-- The fallback path of `run_pipeline` (pipeline.py 214-255): the mock
scene is `json.dumps`ed, sanitized and re-parsed in the source; on a
`json.dumps` output the sanitizer is the identity (the dump starts with
the object's opening brace and ends with its closing brace, so the slice
keeps everything) and `loads` after `dumps` returns the same value, so
the round-trip is elided. -/
def run_pipeline_fallback (prompt : String) (c : Option SceneInputConstraints)
    (processId : String) : Except String (PlanSummary × SceneSchema) :=
  match _normalize_to_scene_schema (mock_scene prompt c processId) with
  | .ok normalized => .ok (_make_plan prompt normalized, normalized)
  | .error e => .error e

/-! ## Values and projections used by the claim statements -/

/-- Does the action dict `j` carry a props dict containing `src`? -/
def actionPropsHasSrc (j : Json) : Bool :=
  match j with
  | .obj f =>
    match jget f "props" with
    | some (.obj p) => hasKey p "src"
    | _ => false
  | _ => false

/-- The `type` field of an action dict. -/
def actionTypeField (j : Json) : Option Json :=
  match j with
  | .obj f => jget f "type"
  | _ => none

/-- Per-document duration projection: the list of scene durations and the
meta total duration. -/
def projDur (r : PlanSummary × SceneSchema) : List Rat × Rat :=
  (r.2.scenes.map (fun s => s.durationSec), r.2.meta.totalDurationSec)

/-- Determinism projection: `scenesCount` and the per-scene durations. -/
def projDet (r : PlanSummary × SceneSchema) : Nat × List Rat :=
  (r.1.scenesCount, r.2.scenes.map (fun s => s.durationSec))

/-- The raw `meta` mapping used by the C3 counterexample. -/
def c3meta : List (String × Json) :=
  [("totalDurationSec", Json.num 5), ("language", Json.str "en")]

/-- C3 counterexample input: `{"scenes": [], "meta": c3meta}`. -/
def c3raw : Json := .obj [("scenes", .arr []), ("meta", .obj c3meta)]

/-- C6 counterexample input: one scene whose only asset supplies an
explicit empty `props` mapping. -/
def c6raw : Json :=
  .obj [("scenes", .arr [.obj [("assets",
           .arr [.obj [("type", .str "video"), ("props", .obj [])]])]]),
        ("meta", .obj [("totalDurationSec", .num 3)])]

/-- The constraints of the C8 scenario
(`{totalDurationSec:10, deterministic:true}`). -/
def c8constraints : SceneInputConstraints :=
  { totalDurationSec := some 10, deterministic := some true }

/-- Scenario projection for C8: scene count from the plan and, per scene,
its duration together with the action types of each row. -/
def projScenario (r : PlanSummary × SceneSchema) :
    Nat × List (Rat × List (List String)) :=
  (r.1.scenesCount,
   r.2.scenes.map (fun s =>
     (s.durationSec, s.rows.map (fun row => row.actions.map (fun a => a.type)))))

/-! ## Evaluation lemmas -/

/-- The Scene Document produced by normalizing the fallback mock output,
as a function of the prompt and the three constraint-derived values. -/
def mockDoc (prompt : String) (dur fps : Int) (ar : String) : SceneSchema :=
  SceneSchema.mk
    [SceneItem.mk "1" (some "Intro") (dur : Rat)
      [Row.mk (s!"row-{(1:Nat)}-1") "video"
        [Action.mk (s!"action-{(1:Nat)}-{(1:Nat)}") "video" 0 (dur : Rat)
           [("type", Json.str "video"), ("src", Json.str "placeholder_intro.mp4")]
           (some []),
         Action.mk (s!"action-{(1:Nat)}-{(2:Nat)}") "text" 0 (dur : Rat)
           [("type", Json.str "text"), ("src", Json.str prompt)]
           (some [])]
        (some [])]]
    (Meta.mk (some ar) (some fps) (dur : Rat) (some "scene-builder-agent") (some "1.0.0"))

/-- Normalizing the fallback mock evaluates to `mockDoc`, for any prompt,
process id and constraint-derived values. -/
theorem norm_mock_eval (prompt pid : String) (dur fps : Int) (ar : String) :
    normBody (("processId", Json.str pid) :: mockBody prompt dur fps ar)
      = .ok (mockDoc prompt dur fps ar) := rfl

/-- Full evaluation of the fallback pipeline path. -/
theorem run_fallback_eval (prompt pid : String)
    (c : Option SceneInputConstraints) :
    run_pipeline_fallback prompt c pid
      = .ok (PlanSummary.mk 1 (s!"Generated {(1:Nat)} scene(s) from prompt") prompt,
             mockDoc prompt (fallbackTotalDuration c) (fallbackFps c)
               (fallbackAspect c)) := by
  unfold run_pipeline_fallback
  rw [show _normalize_to_scene_schema (mock_scene prompt c pid)
        = normBody (("processId", Json.str pid) ::
            mockBody prompt (fallbackTotalDuration c) (fallbackFps c)
              (fallbackAspect c)) from rfl,
      norm_mock_eval]
  rfl

/-- Without a `scenes` key the scene loop body runs zero times: any
successful normalization has an empty scene list. -/
theorem normCore_scenes_none (planV metaV : Json) (doc : SceneSchema)
    (h : normCore planV none metaV = .ok doc) : doc.scenes = [] := by
  unfold normCore at h
  simp only [mapME, List.enumFrom] at h
  cases planV with
  | obj planF =>
    unfold SceneSchema.ofScenesMeta at h
    simp only [mapME] at h
    cases hM : Meta.validate metaV with
    | ok m => rw [hM] at h; injection h with h2; subst h2; rfl
    | error e => rw [hM] at h; exact Except.noConfusion h
  | null => exact Except.noConfusion h
  | bool b => exact Except.noConfusion h
  | num q => exact Except.noConfusion h
  | str s => exact Except.noConfusion h
  | arr l => exact Except.noConfusion h

/-- Updating an existing key keeps it present. -/
theorem hasKey_setVal_self (a : List (String × Json)) (k : String) (v : Json)
    (h : hasKey a k = true) : hasKey (setVal a k v) k = true := by
  induction a with
  | nil => simp [hasKey] at h
  | cons q r ih =>
    simp only [hasKey, setVal, List.map_cons, List.any_cons] at h ih ⊢
    cases hq : (q.1 == k) with
    | true => simp [hq]
    | false =>
      rw [hq] at h
      simp only [Bool.false_or] at h
      simp only [hq, Bool.false_eq_true, if_false, Bool.false_or]
      exact ih h

/-- `{**asset, "src": ...}` always contains the key `src`. -/
theorem hasKey_dictWithSrc (a : List (String × Json)) :
    hasKey (dictWithSrc a) "src" = true := by
  unfold dictWithSrc
  split
  · exact hasKey_setVal_self a "src" _ (by assumption)
  · simp [hasKey, List.any_append]

/-- An asset without an explicit `props` mapping gets synthesized props
containing `src`. -/
theorem normAsset_no_props_src (a : List (String × Json)) (idx aidx : Nat)
    (dur : Json) (j : Json) (hp : jget a "props" = none)
    (h : normAsset idx aidx dur (.obj a) = .ok j) :
    actionPropsHasSrc j = true := by
  unfold normAsset at h
  simp only [jgetD, hp, Option.getD_none] at h
  split at h
  · split at h
    · split at h
      · injection h with h2
        subst h2
        exact hasKey_dictWithSrc a
      · exact Except.noConfusion h
    · exact Except.noConfusion h
  · exact Except.noConfusion h

/-- A validated `Action` reads its `type` from the dict's `type` field. -/
theorem Action.validate_type (j : Json) (act : Action)
    (h : Action.validate j = .ok act) :
    actionTypeField j = some (.str act.type) := by
  unfold Action.validate at h
  split at h
  · split at h
    · split at h
      · split at h
        · split at h
          · split at h
            · split at h
              · split at h
                · injection h with h2
                  subst h2
                  simp only [actionTypeField]
                  assumption
                · exact Except.noConfusion h
              · exact Except.noConfusion h
            · exact Except.noConfusion h
          · exact Except.noConfusion h
        · exact Except.noConfusion h
      · exact Except.noConfusion h
    · exact Except.noConfusion h
  · exact Except.noConfusion h

/-- An asset without a `type` key yields an action dict whose `type` is
the literal "video". -/
theorem normAsset_no_type (a : List (String × Json)) (idx aidx : Nat)
    (dur : Json) (j : Json) (ht : jget a "type" = none)
    (h : normAsset idx aidx dur (.obj a) = .ok j) :
    actionTypeField j = some (.str "video") := by
  unfold normAsset at h
  simp only [jgetD, ht, Option.getD_none] at h
  rw [show pyLower "video" = "video" from rfl] at h
  rw [if_neg (by decide : ¬ ("video" = "music"))] at h
  split at h
  · split at h
    · injection h with h2
      subst h2
      rfl
    · exact Except.noConfusion h
  · exact Except.noConfusion h

/-- Claim C1 (amended).  A parsed mapping that lacks a `scenes` key is not
rejected for that reason: whenever normalization succeeds on such a mapping
the resulting document has an empty scene list, and the specific raw input
`\x7b\x7d` does fail, but because its defaulted empty `meta` lacks the
required `totalDurationSec`, not because `scenes` is absent. -/
theorem claim_missing_scenes :
    (∀ (kvs : List (String × Json)) (doc : SceneSchema),
        jget kvs "scenes" = none →
        _normalize_to_scene_schema (.obj kvs) = .ok doc → doc.scenes = [])
    ∧ (_normalize_to_scene_schema (.obj [])).toOption = none := by
  constructor
  · intro kvs doc h1 h2
    have h3 : normCore (jgetD kvs "plan" (.obj [])) (jget kvs "scenes")
        (jgetD kvs "meta" (.obj [])) = .ok doc := h2
    rw [h1] at h3
    exact normCore_scenes_none _ _ _ h3
  · rfl

/-- Counterexample to claim C1 as stated: the mapping
`\x7b"meta": \x7b"totalDurationSec": 5\x7d\x7d` has no `scenes` key, yet the
Normalization Engine succeeds and produces a document (with an empty scene
list) instead of failing. -/
theorem claim_missing_scenes_cex :
    jget [("meta", Json.obj [("totalDurationSec", Json.num 5)])] "scenes" = none
    ∧ _normalize_to_scene_schema
        (.obj [("meta", .obj [("totalDurationSec", .num 5)])])
        = .ok (SceneSchema.mk []
            (Meta.mk (some "16:9") (some 30) 5 (some "scene-builder-agent")
              (some "1.0.0"))) :=
  ⟨rfl, rfl⟩

/-- Witness for claim C1: the amended theorem applied to the concrete
mapping without a `scenes` key. -/
theorem claim_missing_scenes_witness :
    (SceneSchema.mk []
      (Meta.mk (some "16:9") (some 30) 5 (some "scene-builder-agent")
        (some "1.0.0"))).scenes = [] :=
  claim_missing_scenes.1 [("meta", Json.obj [("totalDurationSec", Json.num 5)])]
    _ rfl rfl

/-- Claim C2 (amended).  The raw input `\x7b"scenes": []\x7d` does not
normalize successfully: `meta` defaults to the empty mapping, which fails
schema validation because `totalDurationSec` is required.  Supplying it
(e.g. `"meta": \x7b"totalDurationSec": 0\x7d`) yields a Scene Document with
an empty scene list. -/
theorem claim_empty_scenes :
    (_normalize_to_scene_schema (.obj [("scenes", .arr [])])).toOption = none
    ∧ _normalize_to_scene_schema
        (.obj [("scenes", .arr []), ("meta", .obj [("totalDurationSec", .num 0)])])
        = .ok (SceneSchema.mk []
            (Meta.mk (some "16:9") (some 30) 0 (some "scene-builder-agent")
              (some "1.0.0"))) :=
  ⟨rfl, rfl⟩

/-- Counterexample to claim C2 as stated: normalizing the exact raw input
`\x7b"scenes": []\x7d` produces no document (the pydantic `Meta` validation
of the defaulted empty meta raises). -/
theorem claim_empty_scenes_cex :
    (_normalize_to_scene_schema (.obj [("scenes", Json.arr [])])).toOption
      = none := rfl

/-- Claim C3 (amended).  `meta` is not passed through unchanged: the
engine immediately types it with the schema `Meta` model, which requires
and copies `totalDurationSec`, adds the schema defaults (aspectRatio
"16:9", fps 30, generator, version) for absent fields, and drops unknown
fields such as `language`. -/
theorem claim_meta_passthrough :
    ∀ (d : Rat) (lang : String),
      _normalize_to_scene_schema (.obj [("scenes", .arr []),
          ("meta", .obj [("totalDurationSec", .num d), ("language", .str lang)])])
        = .ok (SceneSchema.mk []
            (Meta.mk (some "16:9") (some 30) d (some "scene-builder-agent")
              (some "1.0.0"))) :=
  fun _ _ => rfl

/-- Counterexample to claim C3 as stated: for the raw meta
`\x7b"totalDurationSec": 5, "language": "en"\x7d`, the dumped meta of the
engine output has no `language` key but gained a `generator` key, so it
differs from the raw input meta in both directions. -/
theorem claim_meta_passthrough_cex :
    Except.map (fun d => (hasKey (Meta.dump d.meta) "language",
        hasKey (Meta.dump d.meta) "generator"))
      (_normalize_to_scene_schema c3raw) = .ok (false, true)
    ∧ hasKey c3meta "language" = true ∧ hasKey c3meta "generator" = false :=
  ⟨rfl, rfl, rfl⟩

/-- Claim C6 (amended).  An Action whose raw asset did not supply an
explicit `props` mapping receives synthesized props that always contain a
`src` key; an explicit `props` mapping however is used verbatim and may
lack `src`. -/
theorem claim_props_src :
    ∀ (a : List (String × Json)) (idx aidx : Nat) (dur : Json) (j : Json),
      jget a "props" = none → normAsset idx aidx dur (.obj a) = .ok j →
      actionPropsHasSrc j = true :=
  fun a idx aidx dur j hp h => normAsset_no_props_src a idx aidx dur j hp h

/-- Witness for claim C6: the amended theorem applied to the empty
asset mapping. -/
theorem claim_props_src_witness :
    actionPropsHasSrc (Json.obj
      [("id", Json.str s!"action-{(1:Nat)}-{(1:Nat)}"),
       ("type", Json.str "video"), ("startSec", Json.num 0),
       ("durationSec", Json.num 3),
       ("props", Json.obj [("src", Json.str "")]),
       ("effects", Json.arr [])]) = true :=
  claim_props_src [] 1 1 (Json.num 3) _ rfl rfl

/-- Counterexample to claim C6 as stated: a document normalized from an
asset with the explicit props mapping `\x7b\x7d` validates successfully, and
its single action has no `src` key in its props. -/
theorem claim_props_src_cex :
    Except.map (fun d => d.scenes.map (fun s => s.rows.map
        (fun r => r.actions.map (fun a => hasKey a.props "src"))))
      (_normalize_to_scene_schema c6raw) = .ok [[[false]]] := rfl

/-- Claim C7 (amended).  The fallback scene duration and the meta
`totalDurationSec` both equal `constraints.totalDurationSec` whenever that
field is provided and nonzero; when it is absent, None, or 0 (Python
truthiness), both fall back to 10 seconds. -/
theorem claim_fallback_duration :
    (∀ (p pid : String) (c : SceneInputConstraints) (d : Int),
        c.totalDurationSec = some d → d ≠ 0 →
        Except.map projDur (run_pipeline_fallback p (some c) pid)
          = .ok ([(d : Rat)], (d : Rat)))
    ∧ (∀ (p pid : String),
        Except.map projDur (run_pipeline_fallback p none pid)
          = .ok ([(10 : Rat)], (10 : Rat)))
    ∧ (∀ (p pid : String) (c : SceneInputConstraints),
        (c.totalDurationSec = none ∨ c.totalDurationSec = some 0) →
        Except.map projDur (run_pipeline_fallback p (some c) pid)
          = .ok ([(10 : Rat)], (10 : Rat))) := by
  refine ⟨fun p pid c d hd hne => ?_, fun p pid => ?_, fun p pid c hc => ?_⟩
  · have hD : fallbackTotalDuration (some c) = d := by
      show (match c.totalDurationSec with
            | some d => if d = 0 then 10 else d
            | none => 10 : Int) = d
      rw [hd]
      simp [hne]
    rw [run_fallback_eval, hD]
    rfl
  · rw [run_fallback_eval]
    rfl
  · have hD : fallbackTotalDuration (some c) = 10 := by
      show (match c.totalDurationSec with
            | some d => if d = 0 then 10 else d
            | none => 10 : Int) = 10
      rcases hc with h | h <;> simp [h]
    rw [run_fallback_eval, hD]
    rfl

/-- Witness for claim C7: the amended theorem applied at
totalDurationSec = 7. -/
theorem claim_fallback_duration_witness :
    Except.map projDur (run_pipeline_fallback "x"
      (some (SceneInputConstraints.mk (some 7) (some "16:9") (some 30)
        (some "en") (some false))) "w") = .ok ([(7 : Rat)], (7 : Rat)) :=
  claim_fallback_duration.1 "x" "w" _ 7 rfl (by decide)

/-- Counterexample to claim C7 as stated: with totalDurationSec = 0 the
fallback produces duration 10, not the provided value 0. -/
theorem claim_fallback_duration_cex :
    Except.map projDur (run_pipeline_fallback "p"
      (some (SceneInputConstraints.mk (some 0) (some "16:9") (some 30)
        (some "en") (some true))) "pid") = .ok ([(10 : Rat)], (10 : Rat))
    ∧ (([(10 : Rat)], (10 : Rat)) : List Rat × Rat) ≠ ([(0 : Rat)], (0 : Rat)) := by
  constructor
  · rw [run_fallback_eval]
    rfl
  · decide

/-- Claim C8 (confirmed).  With the adapter unavailable, the prompt
"Create a 10s motivational video" under constraints
totalDurationSec 10, deterministic true yields exactly one scene with one
row holding exactly two actions of types video and text, scene duration
10, and plan.scenesCount = 1 — for every random process id. -/
theorem claim_scenario :
    ∀ pid : String,
      Except.map projScenario (run_pipeline_fallback
        "Create a 10s motivational video" (some c8constraints) pid)
        = .ok (1, [((10 : Rat), [["video", "text"]])]) := by
  intro pid
  rw [run_fallback_eval]
  rfl

/-- Claim C9 (confirmed).  With the adapter unavailable, two pipeline
invocations on the same prompt and constraints yield identical
scenesCount values and identical per-scene duration sequences (the
process id is the only varying input and does not influence them). -/
theorem claim_determinism :
    ∀ (p : String) (c : Option SceneInputConstraints) (u1 u2 : String),
      Except.map projDet (run_pipeline_fallback p c u1)
        = Except.map projDet (run_pipeline_fallback p c u2) := by
  intro p c u1 u2
  rw [run_fallback_eval, run_fallback_eval]

/-- Claim C10 (confirmed).  An asset entry with no `type` key yields an
action dict whose `type` is the literal "video", and any Action validated
from that dict has type "video". -/
theorem claim_default_type :
    ∀ (a : List (String × Json)) (idx aidx : Nat) (dur : Json) (j : Json),
      jget a "type" = none → normAsset idx aidx dur (.obj a) = .ok j →
      actionTypeField j = some (.str "video")
      ∧ ∀ (act : Action), Action.validate j = .ok act → act.type = "video" := by
  intro a idx aidx dur j ht h
  have h1 := normAsset_no_type a idx aidx dur j ht h
  refine ⟨h1, fun act hv => ?_⟩
  have h2 := Action.validate_type j act hv
  rw [h1] at h2
  injection h2 with h3
  injection h3 with h4
  exact h4.symm

/-- Witness for claim C10: the theorem applied to an asset with only a
`src` entry. -/
theorem claim_default_type_witness :
    actionTypeField (Json.obj
      [("id", Json.str s!"action-{(1:Nat)}-{(1:Nat)}"),
       ("type", Json.str "video"), ("startSec", Json.num 0),
       ("durationSec", Json.num 3),
       ("props", Json.obj [("src", Json.str "x.mp4")]),
       ("effects", Json.arr [])]) = some (Json.str "video") :=
  (claim_default_type [("src", Json.str "x.mp4")] 1 1 (Json.num 3) _ rfl rfl).1

/-! ## Sanitizer lemmas -/

theorem head?_dropWhile_false (p : Char → Bool) (l : List Char) (a : Char)
    (h : (l.dropWhile p).head? = some a) : p a = false := by
  have := List.head?_dropWhile_not p l
  rw [h] at this
  exact this

theorem exists_dropWhile_eq_drop (p : Char → Bool) (l : List Char) :
    ∃ n, l.dropWhile p = l.drop n := by
  induction l with
  | nil => exact ⟨0, rfl⟩
  | cons c r ih =>
    cases hc : p c with
    | true =>
      obtain ⟨n, hn⟩ := ih
      exact ⟨n + 1, by simp [List.dropWhile_cons, hc, hn]⟩
    | false => exact ⟨0, by simp [List.dropWhile_cons, hc]⟩

theorem exists_rstrip_eq_take (p : Char → Bool) (l : List Char) :
    ∃ m, (l.reverse.dropWhile p).reverse = l.take m := by
  obtain ⟨n, hn⟩ := exists_dropWhile_eq_drop p l.reverse
  refine ⟨l.length - n, ?_⟩
  rw [hn, List.reverse_drop, List.reverse_reverse, List.length_reverse]

theorem exists_pyStrip_eq_drop_take (p : Char → Bool) (l : List Char) :
    ∃ n m, pyStrip p l = (l.drop n).take m := by
  obtain ⟨n, hn⟩ := exists_dropWhile_eq_drop p l
  obtain ⟨m, hm⟩ := exists_rstrip_eq_take p (l.dropWhile p)
  exact ⟨n, m, by rw [pyStrip, hm, hn]⟩

theorem head?_take_some {l : List Char} {m : Nat} {a : Char}
    (h : (l.take m).head? = some a) : l.head? = some a := by
  rw [List.head?_take] at h
  split at h
  · exact Option.noConfusion h
  · exact h

theorem head?_pyStrip_false (p : Char → Bool) (l : List Char) (a : Char)
    (h : (pyStrip p l).head? = some a) : p a = false := by
  obtain ⟨m, hm⟩ := exists_rstrip_eq_take p (l.dropWhile p)
  rw [pyStrip, hm] at h
  exact head?_dropWhile_false p l a (head?_take_some h)

theorem getLast?_pyStrip_false (p : Char → Bool) (l : List Char) (a : Char)
    (h : (pyStrip p l).getLast? = some a) : p a = false := by
  rw [pyStrip, List.getLast?_reverse] at h
  exact head?_dropWhile_false p (l.dropWhile p).reverse a h

theorem pyStrip_no_strip (p : Char → Bool) (l : List Char)
    (h1 : ∀ a, l.head? = some a → p a = false)
    (h2 : ∀ a, l.getLast? = some a → p a = false) : pyStrip p l = l := by
  cases l with
  | nil => rfl
  | cons c r =>
    have hc : p c = false := h1 c rfl
    rw [pyStrip, List.dropWhile_cons_of_neg (by simp [hc])]
    cases hrev : (c :: r).reverse with
    | nil => exact absurd hrev (by simp)
    | cons b w =>
      have hb : (c :: r).getLast? = some b := by
        rw [← List.head?_reverse, hrev]; rfl
      have hb2 : ¬ p b = true := by simp [h2 b hb]
      rw [List.dropWhile_cons_of_neg hb2, ← hrev, List.reverse_reverse]

theorem pyStrip_idem (p : Char → Bool) (l : List Char) :
    pyStrip p (pyStrip p l) = pyStrip p l :=
  pyStrip_no_strip p _ (head?_pyStrip_false p l) (getLast?_pyStrip_false p l)

theorem mem_of_mem_pyStrip {p : Char → Bool} {l : List Char} {a : Char}
    (h : a ∈ pyStrip p l) : a ∈ l := by
  obtain ⟨n, m, hnm⟩ := exists_pyStrip_eq_drop_take p l
  rw [hnm] at h
  exact ((List.take_sublist _ _).trans (List.drop_sublist _ _)).mem h

theorem head_ticks_of_startsTicks {l : List Char} (h : startsTicks l = true) :
    ∃ r, l = tick :: r ∧ r.take 2 = [tick, tick] := by
  unfold startsTicks at h
  cases l with
  | nil => simp at h
  | cons c r =>
    simp only [List.take_succ_cons, beq_iff_eq, List.cons.injEq] at h
    exact ⟨r, by rw [h.1], h.2⟩

theorem replaceTicks_head_tick {l : List Char} {r : List Char}
    (h : replaceTicks l = tick :: r) : ∃ w, l = tick :: w := by
  cases l with
  | nil => simp [replaceTicks] at h
  | cons c cl =>
    rw [replaceTicks] at h
    split at h
    · obtain ⟨w, hw, _⟩ := head_ticks_of_startsTicks (by assumption)
      exact ⟨_, hw⟩
    · exact ⟨cl, by rw [(List.cons.injEq _ _ _ _).mp h |>.1]⟩

theorem replaceTicks_take2 {l : List Char}
    (h : (replaceTicks l).take 2 = [tick, tick]) : l.take 2 = [tick, tick] := by
  cases l with
  | nil => simp [replaceTicks] at h
  | cons c cl =>
    rw [replaceTicks] at h
    split at h
    · rename_i hst
      obtain ⟨r, hw, hr⟩ := head_ticks_of_startsTicks hst
      rw [hw]
      cases r with
      | nil => simp at hr
      | cons b br => simp_all [List.take_succ_cons]
    · rename_i hst
      simp only [List.take_succ_cons, List.cons.injEq] at h
      obtain ⟨hc, h2⟩ := h
      cases hrt : replaceTicks cl with
      | nil => rw [hrt] at h2; simp at h2
      | cons b br =>
        rw [hrt] at h2
        simp only [List.take_succ_cons, List.cons.injEq] at h2
        obtain ⟨hb, _⟩ := h2
        subst hb hc
        obtain ⟨w, hw⟩ := replaceTicks_head_tick hrt
        subst hw
        simp [List.take_succ_cons]

theorem replaceTicks_nil : replaceTicks [] = [] := by
  rw [replaceTicks.eq_def]

theorem replaceTicks_cons (c : Char) (r : List Char) :
    replaceTicks (c :: r)
      = if startsTicks (c :: r) then replaceTicks (r.drop 2)
        else c :: replaceTicks r := by
  rw [replaceTicks.eq_def]

theorem hasTTT_replaceTicks (l : List Char) : hasTTT (replaceTicks l) = false := by
  induction l using replaceTicks.induct with
  | case1 => rw [replaceTicks_nil]; rfl
  | case2 c r hst ih =>
    rw [replaceTicks_cons, if_pos hst]
    exact ih
  | case3 c r hst ih =>
    rw [replaceTicks_cons, if_neg hst]
    rw [hasTTT]
    cases hs : startsTicks (c :: replaceTicks r) with
    | false => simpa using ih
    | true =>
      exfalso
      obtain ⟨w, hw, h2⟩ := head_ticks_of_startsTicks hs
      have hc : c = tick := by
        have := (List.cons.injEq _ _ _ _).mp hw
        exact this.1
      have hw2 : (replaceTicks r).take 2 = [tick, tick] := by
        have := (List.cons.injEq _ _ _ _).mp hw
        rw [← this.2] at h2
        exact h2
      have hr2 : r.take 2 = [tick, tick] := replaceTicks_take2 hw2
      apply hst
      unfold startsTicks
      subst hc
      cases r with
      | nil => simp at hr2
      | cons b br =>
        simp only [List.take_succ_cons, List.cons.injEq] at hr2
        simp [List.take_succ_cons, hr2]

theorem hasTTT_of_startsTicks {l : List Char} (h : startsTicks l = true) :
    hasTTT l = true := by
  cases l with
  | nil => simp [startsTicks] at h
  | cons c r => simp [hasTTT, h]

theorem hasTTT_drop {l : List Char} (n : Nat) (h : hasTTT l = false) :
    hasTTT (l.drop n) = false := by
  induction n generalizing l with
  | zero => simpa using h
  | succ n ih =>
    cases l with
    | nil => rfl
    | cons c r =>
      rw [hasTTT, Bool.or_eq_false_iff] at h
      exact ih h.2

theorem startsTicks_take {l : List Char} {m : Nat}
    (h : startsTicks (l.take m) = true) : startsTicks l = true := by
  unfold startsTicks at h ⊢
  rw [List.take_take] at h
  rcases Nat.lt_or_ge m 3 with hm | hm
  · exfalso
    have hlen := congrArg List.length (beq_iff_eq.mp h)
    simp only [List.length_take, List.length_cons, List.length_nil] at hlen
    omega
  · rwa [Nat.min_eq_left (by omega)] at h

theorem startsTicks_pyStrip_false (p : Char → Bool) {l : List Char}
    (h : hasTTT l = false) : startsTicks (pyStrip p l) = false := by
  obtain ⟨n, m, hnm⟩ := exists_pyStrip_eq_drop_take p l
  rw [hnm]
  cases hs : startsTicks ((l.drop n).take m) with
  | false => rfl
  | true =>
    exfalso
    have h1 := startsTicks_take hs
    have h2 := hasTTT_of_startsTicks h1
    rw [hasTTT_drop n h] at h2
    exact Bool.noConfusion h2

theorem firstIdx_eq_none_iff {l : List Char} {c : Char} :
    firstIdx l c = none ↔ c ∉ l := by
  unfold firstIdx
  rw [List.findIdx?_eq_none_iff]
  constructor
  · intro h hc
    have := h c hc
    simp at this
  · intro h x hx
    cases hb : (x == c) with
    | false => rfl
    | true => exact absurd (beq_iff_eq.mp hb ▸ hx) h

theorem lastIdx_eq_none_iff {l : List Char} {c : Char} :
    lastIdx l c = none ↔ c ∉ l := by
  unfold lastIdx
  rw [Option.map_eq_none']
  rw [List.findIdx?_eq_none_iff]
  constructor
  · intro h hc
    have := h c (by simpa using hc)
    simp at this
  · intro h x hx
    cases hb : (x == c) with
    | false => rfl
    | true =>
      exact absurd (beq_iff_eq.mp hb ▸ (List.mem_reverse.mp hx)) h

theorem firstIdx_some_getElem {l : List Char} {c : Char} {a : Nat}
    (h : firstIdx l c = some a) : a < l.length ∧ l[a]? = some c := by
  unfold firstIdx at h
  rw [List.findIdx?_eq_some_iff_getElem] at h
  obtain ⟨ha, hpa, _⟩ := h
  exact ⟨ha, by rw [List.getElem?_eq_getElem ha, beq_iff_eq.mp hpa]⟩

theorem lastIdx_some_getElem {l : List Char} {c : Char} {b : Nat}
    (h : lastIdx l c = some b) : b < l.length ∧ l[b]? = some c := by
  unfold lastIdx at h
  rw [Option.map_eq_some'] at h
  obtain ⟨i, hi, hb⟩ := h
  rw [List.findIdx?_eq_some_iff_getElem] at hi
  obtain ⟨hlt, hpi, _⟩ := hi
  rw [List.length_reverse] at hlt
  have hb2 : b = l.length - 1 - i := hb.symm
  subst hb2
  refine ⟨by omega, ?_⟩
  rw [← List.getElem?_reverse hlt]
  rw [List.getElem?_eq_getElem (by simpa using hlt), beq_iff_eq.mp hpi]

theorem slice_head {t : List Char} {a b : Nat} (hab : a ≤ b)
    (ha : t[a]? = some lbrace) :
    ((t.drop a).take (b + 1 - a)).head? = some lbrace := by
  rw [List.head?_take, if_neg (by omega)]
  rw [List.head?_eq_getElem?, List.getElem?_drop, Nat.add_zero]
  exact ha

theorem slice_last {t : List Char} {a b : Nat} (hab : a ≤ b)
    (hbL : b < t.length) (hb : t[b]? = some rbrace) :
    ((t.drop a).take (b + 1 - a)).getLast? = some rbrace := by
  rw [List.getLast?_eq_getElem?]
  have hlen : ((t.drop a).take (b + 1 - a)).length = b + 1 - a := by
    simp only [List.length_take, List.length_drop]
    omega
  rw [hlen]
  rw [List.getElem?_take_of_lt (by omega)]
  rw [List.getElem?_drop]
  rw [show a + (b + 1 - a - 1) = b by omega]
  exact hb

theorem pyStrip_brace_noop {y : List Char} (h1 : y.head? = some lbrace)
    (h2 : y.getLast? = some rbrace) : pyStrip isPySpace y = y := by
  apply pyStrip_no_strip
  · intro x hx
    rw [h1] at hx
    injection hx with hx
    subst hx
    rfl
  · intro x hx
    rw [h2] at hx
    injection hx with hx
    subst hx
    rfl

theorem startsTicks_of_head_lbrace {y : List Char} (h : y.head? = some lbrace) :
    startsTicks y = false := by
  cases y with
  | nil => exact Option.noConfusion h
  | cons c w =>
    injection h with h
    subst h
    rfl

theorem cleanChars_brace_fixed {y : List Char} (h1 : y.head? = some lbrace)
    (h2 : y.getLast? = some rbrace) : cleanChars y = y := by
  have hne : y ≠ [] := by
    intro h
    subst h
    exact Option.noConfusion h1
  have e1 : pyStrip isPySpace y = y := pyStrip_brace_noop h1 h2
  have e2 : startsTicks y = false := startsTicks_of_head_lbrace h1
  have e3 : firstIdx y lbrace = some 0 := by
    cases y with
    | nil => exact absurd rfl hne
    | cons c w =>
      injection h1 with h1
      subst h1
      simp [firstIdx, List.findIdx?_cons]
  have e4 : lastIdx y rbrace = some (y.length - 1) := by
    unfold lastIdx
    cases hrev : y.reverse with
    | nil => exact absurd (by simpa using congrArg List.length hrev) hne
    | cons b w =>
      have hb : b = rbrace := by
        have := List.head?_reverse y
        rw [hrev, h2] at this
        exact Option.some.inj this
      subst hb
      simp [List.findIdx?_cons]
  have hpos : 1 ≤ y.length := by
    cases y with
    | nil => exact absurd rfl hne
    | cons c w => simp
  unfold cleanChars
  rw [if_neg hne]
  simp only [e1, e2, Bool.false_eq_true, if_false, e3, e4]
  rw [List.drop_zero, Nat.sub_zero, Nat.sub_add_cancel hpos, List.take_length]
  exact e1

theorem cleanChars_plain_fixed {y : List Char}
    (hself : pyStrip isPySpace y = y)
    (hfence : startsTicks y = false)
    (hbr : firstIdx y lbrace = none ∨ lastIdx y rbrace = none) :
    cleanChars y = y := by
  by_cases hne : y = []
  · subst hne; rfl
  · unfold cleanChars
    rw [if_neg hne]
    simp only [hself, hfence, Bool.false_eq_true, if_false]
    rcases hbr with h | h
    · rw [h]
      exact hself
    · rw [h]
      cases hfi : firstIdx y lbrace with
      | none => exact hself
      | some a => exact hself

theorem second_pass_fixed (t2 : List Char)
    (hq : startsTicks (pyStrip isPySpace t2) = false) :
    cleanChars (pyStrip isPySpace
      (match firstIdx t2 lbrace, lastIdx t2 rbrace with
       | some a, some b => (t2.drop a).take (b + 1 - a)
       | _, _ => t2))
    = pyStrip isPySpace
      (match firstIdx t2 lbrace, lastIdx t2 rbrace with
       | some a, some b => (t2.drop a).take (b + 1 - a)
       | _, _ => t2) := by
  cases hfi : firstIdx t2 lbrace with
  | none =>
    apply cleanChars_plain_fixed (pyStrip_idem _ _) hq
    left
    rw [firstIdx_eq_none_iff]
    intro hmem
    exact firstIdx_eq_none_iff.mp hfi (mem_of_mem_pyStrip hmem)
  | some a =>
    cases hla : lastIdx t2 rbrace with
    | none =>
      apply cleanChars_plain_fixed (pyStrip_idem _ _) hq
      right
      rw [lastIdx_eq_none_iff]
      intro hmem
      exact lastIdx_eq_none_iff.mp hla (mem_of_mem_pyStrip hmem)
    | some b =>
      obtain ⟨haL, haE⟩ := firstIdx_some_getElem hfi
      obtain ⟨hbL, hbE⟩ := lastIdx_some_getElem hla
      show cleanChars (pyStrip isPySpace ((t2.drop a).take (b + 1 - a)))
        = pyStrip isPySpace ((t2.drop a).take (b + 1 - a))
      rcases Nat.lt_or_ge b a with hba | hab
      · rw [show b + 1 - a = 0 by omega, List.take_zero]
        rfl
      · have hh := slice_head hab haE
        have hl := slice_last hab hbL hbE
        rw [pyStrip_brace_noop hh hl]
        exact cleanChars_brace_fixed hh hl

theorem startsTicks_pyStrip_fenceT (l : List Char) :
    startsTicks (pyStrip isPySpace (fenceT l)) = false := by
  unfold fenceT
  by_cases hf : startsTicks (pyStrip isPySpace l) = true
  · rw [if_pos hf]
    exact startsTicks_pyStrip_false _ (hasTTT_replaceTicks _)
  · rw [if_neg hf]
    rw [pyStrip_idem]
    exact Bool.not_eq_true _ |>.mp hf

theorem cleanChars_idem (l : List Char) :
    cleanChars (cleanChars l) = cleanChars l := by
  by_cases hl : l = []
  · subst hl; rfl
  · have hform : cleanChars l = pyStrip isPySpace
        (match firstIdx (fenceT l) lbrace, lastIdx (fenceT l) rbrace with
         | some a, some b => ((fenceT l).drop a).take (b + 1 - a)
         | _, _ => fenceT l) := by
      unfold cleanChars fenceT
      rw [if_neg hl]
    rw [hform]
    exact second_pass_fixed (fenceT l) (startsTicks_pyStrip_fenceT l)

/-- Claim C4 (confirmed).  The Raw-Text Sanitizer is idempotent: for
every input string x, sanitize(sanitize(x)) = sanitize(x). -/
theorem claim_sanitizer_idempotent :
    ∀ s : String, _clean_gemini_json (_clean_gemini_json s)
      = _clean_gemini_json s := by
  intro s
  show String.mk (cleanChars (String.mk (cleanChars s.data)).data)
    = String.mk (cleanChars s.data)
  rw [show (String.mk (cleanChars s.data)).data = cleanChars s.data from rfl]
  rw [cleanChars_idem]

/-- Claim C5 (amended).  For an input whose trimmed text does not start
with a triple-backtick fence marker and which does not contain both a `\x7b`
and a `\x7d` (so the brace slice cannot fire), the sanitizer returns the
input merely trimmed of surrounding whitespace. -/
theorem claim_sanitizer_no_fence :
    ∀ s : String, startsTicks (pyStrip isPySpace s.data) = false →
      (firstIdx (pyStrip isPySpace s.data) lbrace = none
        ∨ lastIdx (pyStrip isPySpace s.data) rbrace = none) →
      _clean_gemini_json s = String.mk (pyStrip isPySpace s.data) := by
  intro s hf hbr
  show String.mk (cleanChars s.data) = _
  by_cases hl : s.data = []
  · rw [hl]
    rfl
  · congr 1
    unfold cleanChars
    rw [if_neg hl]
    simp only [hf, Bool.false_eq_true, if_false]
    rcases hbr with h | h
    · rw [h]
      exact pyStrip_idem _ _
    · rw [h]
      cases hfi : firstIdx (pyStrip isPySpace s.data) lbrace with
      | none => exact pyStrip_idem _ _
      | some a => exact pyStrip_idem _ _

/-- Counterexample to claim C5 as stated: the fence-free input "a\x7b\x7db"
is returned as "\x7b\x7d" (the brace slice applies), not as the trimmed
original. -/
theorem claim_sanitizer_no_fence_cex :
    _clean_gemini_json "a\x7b\x7db" = "\x7b\x7d"
    ∧ "\x7b\x7d" ≠ "a\x7b\x7db"
    ∧ startsTicks (pyStrip isPySpace (String.data "a\x7b\x7db")) = false :=
  ⟨rfl, by decide, rfl⟩

/-- Witness for claim C5: the amended theorem applied to "  hi  ". -/
theorem claim_sanitizer_no_fence_witness :
    _clean_gemini_json "  hi  " = String.mk (pyStrip isPySpace (String.data "  hi  ")) :=
  claim_sanitizer_no_fence "  hi  " (by decide) (Or.inl (by decide))

end SB
